import Mathlib

/-!
Verification of the CTB crypto-trading-bot execution core: a shallow
embedding of the simulated exchange adapter
(agent/exchange_adapters/mock_exchange_adapter.py), the strategy position
tracking (agent/strategies/...), and the orchestration loop
(agent/trading_agent.py), with theorems checking the natural-language
specification against the embedded code.

Numeric amounts are modelled as exact rationals standing for the Python
floats of the source. Randomness (random.random() draws) is made explicit:
every draw is a parameter of the embedded function.
-/

namespace CTB

/-- Python dict with string keys, modelled as an association list in
insertion order (first binding of a key is the authoritative one; the
embedded operations never create duplicate keys). -/
abbrev Dict (α : Type) : Type := List (String × α)

/-- dict.get(k): the value bound to k, if any. -/
def Dict.get? {α : Type} : Dict α → String → Option α
  | [], _ => none
  | p :: rest, k => if p.1 = k then some p.2 else Dict.get? rest k

/-- dict.get(k, d): the value bound to k, or the default d. -/
def Dict.getD {α : Type} (m : Dict α) (k : String) (d : α) : α :=
  (Dict.get? m k).getD d

/-- dict[k] = v: overwrite the binding of k if present, else append it. -/
def Dict.set {α : Type} (m : Dict α) (k : String) (v : α) : Dict α :=
  match (m : List (String × α)) with
  | [] => [(k, v)]
  | p :: rest =>
      if p.1 = k then (k, v) :: rest
      else p :: Dict.set rest k v

/-- Python "s.split('/')" on the underlying character list. -/
def splitSlash : List Char → List (List Char)
  | [] => [[]]
  | c :: cs =>
      let rest := splitSlash cs
      if c = '/' then [] :: rest
      else
        match rest with
        | [] => [[c]]
        | r :: rs => (c :: r) :: rs

/-- "base, quote = symbol.split('/')": succeeds only when the split has
exactly two parts; otherwise Python raises ValueError. -/
def splitSymbol (s : String) : Option (String × String) :=
  match (splitSlash s.data).map (fun l => String.mk l) with
  | [b, q] => some (b, q)
  | _ => none

/-- "symbol.split('/')[0]" — never raises (a slashless symbol is its own
first part). Used by the strategies. -/
def symbolBase (s : String) : String :=
  String.mk ((splitSlash s.data).headD [])

/-- "symbol.split('/')[-1]" — never raises. Used by the strategies. -/
def symbolQuote (s : String) : String :=
  String.mk ((splitSlash s.data).getLastD [])

/-- Modelled from the spec: agent/trading_models.py is absent from the
source tree. OrderAction per spec section 3: BUY, SELL for orders, HOLD for
signals. -/
inductive OrderAction
  | buy
  | sell
  | hold
deriving Repr, DecidableEq

/-- Modelled from the spec: agent/trading_models.py is absent from the
source tree. OrderType per spec section 3: MARKET or LIMIT. -/
inductive OrderType
  | market
  | limit
deriving Repr, DecidableEq

/-- Modelled from the spec: agent/trading_models.py is absent from the
source tree. AgentPortfolio per spec section 3: cash balances and asset
holdings keyed by currency/asset (total_value and last_updated are omitted:
no embedded operation reads them). -/
structure AgentPortfolio where
  cash_balance : Dict ℚ := ([] : List (String × ℚ))
  asset_holdings : Dict ℚ := ([] : List (String × ℚ))
deriving DecidableEq

/-- Modelled from the spec: AgentPortfolio.update_cash(currency, delta)
per spec section 4.1 — adds delta (possibly negative) to the currency's
balance, default 0; the Portfolio itself never rejects a negative result. -/
def AgentPortfolio.update_cash (p : AgentPortfolio) (currency : String) (delta : ℚ) :
    AgentPortfolio :=
  { p with cash_balance :=
      Dict.set p.cash_balance currency (Dict.getD p.cash_balance currency 0 + delta) }

/-- Modelled from the spec: AgentPortfolio.update_asset(asset, delta)
per spec section 4.1, symmetric to update_cash. -/
def AgentPortfolio.update_asset (p : AgentPortfolio) (asset : String) (delta : ℚ) :
    AgentPortfolio :=
  { p with asset_holdings :=
      Dict.set p.asset_holdings asset (Dict.getD p.asset_holdings asset 0 + delta) }

/-- OrderRequest from agent/exchange_adapters/base_exchange_adapter.py
(request_id, a uuid/timestamp string never read by the embedded code, is
omitted). -/
structure OrderRequest where
  symbol : String
  action : OrderAction
  order_type : OrderType
  quantity : ℚ
  price : Option ℚ := none
  client_order_id : Option String := none
  strategy_name : Option String := none
deriving Repr, DecidableEq

/-- Modelled from the spec: agent/trading_models.py is absent from the
source tree. ExecutedOrder per spec section 3 (timestamp and the metadata
map are omitted: wall-clock time and log-only metadata are outside the
embedding). status carries the source's literal strings. -/
structure ExecutedOrder where
  order_id : String
  client_order_id : Option String := none
  symbol : String
  action : OrderAction
  order_type : OrderType
  price : ℚ
  quantity : ℚ
  fee : ℚ := 0
  fee_currency : Option String := none
  status : String
deriving Repr, DecidableEq

/-- Modelled from the spec: agent/trading_models.py is absent from the
source tree. TradingSignal per spec section 3. -/
structure TradingSignal where
  symbol : String
  action : OrderAction
  confidence : ℚ := 1/2
  quantity_percentage : Option ℚ := none
  quantity_absolute : Option ℚ := none
  price : Option ℚ := none
  strategy_name : Option String := none
deriving Repr, DecidableEq

/-- Exceptions of base_exchange_adapter.py plus the builtin Python
exceptions the embedded code can raise. -/
inductive PyError
  | insufficientFunds
  | orderPlacement
  | exchangeAdapter
  | typeError
  | valueError
  | adapterInitFailure
deriving Repr, DecidableEq

/-- "client_order_id or fresh": Python 'or' takes the fallback when the
left side is falsy (None or the empty string). -/
def pyOrId (c : Option String) (fresh : String) : String :=
  match c with
  | some s => if s = "" then fresh else s
  | none => fresh

/-- The MockExchangeAdapter's mutable state
(mock_exchange_adapter.py, __init__). -/
structure MockState where
  portfolio : AgentPortfolio
  open_orders : Dict ExecutedOrder := ([] : List (String × ExecutedOrder))
  trade_history : List ExecutedOrder := []
  current_sim_prices : Dict ℚ := ([] : List (String × ℚ))
  slippage_factor : ℚ := 1/1000
  commission_rate : ℚ := 1/1000
  fill_probability : ℚ := 1
deriving DecidableEq

/-- MockExchangeAdapter._get_sim_price: the configured price (fallback 1.0
when the symbol has none), scaled by the noise factor
1 + (r − 0.5) * 0.0005 for the draw r of random.random(). -/
def MockState.get_sim_price (st : MockState) (symbol : String) (rNoise : ℚ) : ℚ :=
  ((Dict.get? st.current_sim_prices symbol).getD 1) * (1 + (rNoise - 1/2) * (5/10000))

/-- MockExchangeAdapter.get_current_price: the configured price with no
fallback and no noise (dict.get returns None for an unknown symbol). -/
def MockState.get_current_price (st : MockState) (symbol : String) : Option ℚ :=
  Dict.get? st.current_sim_prices symbol

/-- The settlement section of MockExchangeAdapter.create_order
(lines 116-159): compute cost and commission, check and move funds for
BUY/SELL, build the FILLED order and append it to trade_history. Reached
for MARKET orders and for LIMIT orders whose price condition crossed. -/
def MockState.settle (st : MockState) (req : OrderRequest) (base quote : String)
    (execution_price : ℚ) (freshId : String) :
    Except PyError (ExecutedOrder × MockState) :=
  let quantity_to_trade := req.quantity
  let cost_or_proceeds := quantity_to_trade * execution_price
  let commission := cost_or_proceeds * st.commission_rate
  let updated : Except PyError AgentPortfolio :=
    match req.action with
    | .buy =>
        let required_quote :=
          cost_or_proceeds + (if quote = base then 0 else commission)
        if Dict.getD st.portfolio.cash_balance quote 0 < required_quote then
          .error .insufficientFunds
        else
          .ok (((st.portfolio.update_cash quote (-cost_or_proceeds)).update_cash
                  quote (-commission)).update_asset base quantity_to_trade)
    | .sell =>
        if Dict.getD st.portfolio.asset_holdings base 0 < quantity_to_trade then
          .error .insufficientFunds
        else
          .ok (((st.portfolio.update_asset base (-quantity_to_trade)).update_cash
                  quote cost_or_proceeds).update_cash quote (-commission))
    | .hold => .ok st.portfolio
  match updated with
  | .error e => .error e
  | .ok p =>
      let eo : ExecutedOrder :=
        { order_id := pyOrId req.client_order_id freshId
          client_order_id := req.client_order_id
          symbol := req.symbol
          action := req.action
          order_type := req.order_type
          price := execution_price
          quantity := quantity_to_trade
          fee := commission
          fee_currency := some quote
          status := "FILLED" }
      .ok (eo, { st with portfolio := p, trade_history := st.trade_history ++ [eo] })

/-- MockExchangeAdapter.create_order, with the two random draws explicit:
rFill is the non-fill roll drawn first, rNoise the draw inside
_get_sim_price, freshId the uuid-derived fallback order id. An .error
result models a raised exception, leaving the caller's state unchanged. -/
def MockState.create_order (st : MockState) (req : OrderRequest)
    (rFill rNoise : ℚ) (freshId : String) :
    Except PyError (ExecutedOrder × MockState) :=
  if rFill > st.fill_probability then
    -- Non-fill: the REJECTED order is returned without being recorded in
    -- trade_history or open_orders (the recording line is commented out in
    -- the source).
    .ok ({ order_id := pyOrId req.client_order_id freshId
           client_order_id := req.client_order_id
           symbol := req.symbol
           action := req.action
           order_type := req.order_type
           price := (req.price).getD 0
           quantity := req.quantity
           status := "REJECTED" }, st)
  else
    match splitSymbol req.symbol with
    | none => .error .valueError
    | some (base, quote) =>
        let sim_price := st.get_sim_price req.symbol rNoise
        match req.order_type with
        | .limit =>
            match req.price with
            | none =>
                -- Python compares sim_price with None (BUY/SELL) or
                -- multiplies quantity by None (otherwise): TypeError.
                .error .typeError
            | some lp =>
                if req.action = .buy ∧ sim_price > lp then
                  let pending : ExecutedOrder :=
                    { order_id := pyOrId req.client_order_id freshId
                      client_order_id := req.client_order_id
                      symbol := req.symbol
                      action := req.action
                      order_type := req.order_type
                      price := lp
                      quantity := req.quantity
                      status := "OPEN" }
                  .ok (pending,
                       { st with open_orders :=
                           Dict.set st.open_orders pending.order_id pending })
                else if req.action = .sell ∧ sim_price < lp then
                  let pending : ExecutedOrder :=
                    { order_id := pyOrId req.client_order_id freshId
                      client_order_id := req.client_order_id
                      symbol := req.symbol
                      action := req.action
                      order_type := req.order_type
                      price := lp
                      quantity := req.quantity
                      status := "OPEN" }
                  .ok (pending,
                       { st with open_orders :=
                           Dict.set st.open_orders pending.order_id pending })
                else
                  st.settle req base quote lp freshId
        | .market =>
            let execution_price :=
              if req.action = .buy then sim_price * (1 + st.slippage_factor)
              else sim_price * (1 - st.slippage_factor)
            st.settle req base quote execution_price freshId

/-- Per-instance state of MovingAverageCrossoverStrategy
(moving_average_crossover.py): the traded symbol, the configured trade
quantity percentage, and the optimistic position flag. -/
structure MAState where
  symbol : String := "BTC/USDT"
  trade_quantity_percentage : ℚ := 1/10
  position_active : Bool := false
deriving Repr, DecidableEq

/-- The moving-average values read off the prepared data frame in
MovingAverageCrossoverStrategy.generate_signals (lines 85-93): the last and
second-to-last short/long SMAs and the latest close. -/
structure MAIndicators where
  prev_sma_short : ℚ
  prev_sma_long : ℚ
  sma_short : ℚ
  sma_long : ℚ
  current_price : ℚ
deriving Repr, DecidableEq

/-- The decision section of MovingAverageCrossoverStrategy.generate_signals
(lines 97-159), given the indicator values: emits at most one signal and
optimistically flips position_active on a non-HOLD emission. -/
def MAState.generate_signals (st : MAState) (name : String) (inp : MAIndicators)
    (portfolio : AgentPortfolio) : List TradingSignal × MAState :=
  let quote_currency := symbolQuote st.symbol
  let base_currency := symbolBase st.symbol
  if inp.prev_sma_short ≤ inp.prev_sma_long ∧ inp.sma_short > inp.sma_long then
    if ¬ st.position_active then
      if Dict.getD portfolio.cash_balance quote_currency 0 > 0 then
        ([{ symbol := st.symbol
            action := .buy
            confidence := 8/10
            quantity_percentage := some st.trade_quantity_percentage
            price := some inp.current_price
            strategy_name := some name }],
         { st with position_active := true })
      else ([], st)
    else ([], st)
  else if inp.prev_sma_short ≥ inp.prev_sma_long ∧ inp.sma_short < inp.sma_long then
    if st.position_active then
      if Dict.getD portfolio.asset_holdings base_currency 0 > 0 then
        ([{ symbol := st.symbol
            action := .sell
            confidence := 8/10
            quantity_percentage := some 1
            price := some inp.current_price
            strategy_name := some name }],
         { st with position_active := false })
      else
        -- no asset to sell: state reset, no signal (line 145)
        ([], { st with position_active := false })
    else ([], st)
  else
    ([{ symbol := st.symbol
        action := .hold
        confidence := 1/2
        strategy_name := some name }], st)

/-- MovingAverageCrossoverStrategy.on_order_update (lines 161-174): the
flag changes only for a FILLED order on this strategy's symbol. -/
def MAState.on_order_update (st : MAState) (eo : ExecutedOrder) : MAState :=
  if eo.symbol = st.symbol ∧ eo.status = "FILLED" then
    if eo.action = .buy then { st with position_active := true }
    else if eo.action = .sell then { st with position_active := false }
    else st
  else st

/-- Per-instance state of SentimentLLMStrategy (sentiment_llm_strategy.py):
target base symbols, thresholds, and the per-symbol optimistic position
map. -/
structure SentimentState where
  target_symbols : List String := ["BTC", "ETH"]
  quote_currency : String := "USDT"
  sentiment_threshold_buy : ℚ := 6/10
  sentiment_threshold_sell : ℚ := -(4/10)
  trade_quantity_percentage : ℚ := 1/20
  active_positions : Dict Bool := ([] : List (String × Bool))
deriving DecidableEq

/-- The per-symbol decision section of
SentimentLLMStrategy.generate_signals (lines 157-213), given the averaged
sentiment score and the (optionally) fetched current price: produces
exactly one signal and optimistically updates active_positions on a
non-HOLD emission. -/
def SentimentState.signal_for_symbol (st : SentimentState) (name : String)
    (portfolio : AgentPortfolio) (symbol_base : String)
    (average_sentiment_score : ℚ) (current_price : Option ℚ) :
    TradingSignal × SentimentState :=
  let trading_pair := symbol_base ++ "/" ++ st.quote_currency
  let staged : OrderAction × ℚ × SentimentState :=
    if average_sentiment_score > st.sentiment_threshold_buy then
      if ¬ (Dict.getD st.active_positions symbol_base false) then
        if Dict.getD portfolio.cash_balance st.quote_currency 0 > 0 then
          (OrderAction.buy,
           min (1/2 + (average_sentiment_score - st.sentiment_threshold_buy) * (1/2))
               (95/100),
           st)
        else (OrderAction.hold, 1/2, st)
      else (OrderAction.hold, 1/2, st)
    else if average_sentiment_score < st.sentiment_threshold_sell then
      if Dict.getD st.active_positions symbol_base false then
        if Dict.getD portfolio.asset_holdings symbol_base 0 > 0 then
          (OrderAction.sell,
           min (1/2 + |average_sentiment_score - st.sentiment_threshold_sell| * (1/2))
               (95/100),
           st)
        else
          -- no asset to sell: position map corrected, action stays HOLD
          -- (line 181)
          (OrderAction.hold, 1/2,
           { st with active_positions := Dict.set st.active_positions symbol_base false })
      else (OrderAction.hold, 1/2, st)
    else (OrderAction.hold, 1/2, st)
  match staged with
  | (action, confidence, st1) =>
      if action ≠ .hold then
        let sig : TradingSignal :=
          { symbol := trading_pair
            action := action
            confidence := confidence
            quantity_percentage :=
              some (if action = .buy then st.trade_quantity_percentage else 1)
            price := current_price
            strategy_name := some name }
        let st2 :=
          if action = .buy then
            { st1 with active_positions := Dict.set st1.active_positions symbol_base true }
          else if action = .sell then
            { st1 with active_positions := Dict.set st1.active_positions symbol_base false }
          else st1
        (sig, st2)
      else
        ({ symbol := trading_pair
           action := .hold
           confidence := confidence
           strategy_name := some name }, st1)

/-- SentimentLLMStrategy.on_order_update (lines 218-228): the per-symbol
flag changes only for a FILLED order whose base symbol is targeted. -/
def SentimentState.on_order_update (st : SentimentState) (eo : ExecutedOrder) :
    SentimentState :=
  let symbol_base := symbolBase eo.symbol
  if symbol_base ∈ st.target_symbols ∧ eo.status = "FILLED" then
    if eo.action = .buy then
      { st with active_positions := Dict.set st.active_positions symbol_base true }
    else if eo.action = .sell then
      { st with active_positions := Dict.set st.active_positions symbol_base false }
    else st
  else st

/-- A Python expression value in TradingAgent._process_signals where the
code may hold a float, None, or — because of the unawaited
get_current_price call — a coroutine object. -/
inductive PyVal
  | num (q : ℚ)
  | pynone
  | coroutine
deriving Repr, DecidableEq

/-- Python truthiness: 0.0 and None are falsy; a coroutine object is
truthy. -/
def PyVal.truthy : PyVal → Bool
  | .num q => decide (q ≠ 0)
  | .pynone => false
  | .coroutine => true

/-- Python "x > 0": defined for floats, raises TypeError for None and for a
coroutine object. -/
def PyVal.gtZero : PyVal → Except PyError Bool
  | .num q => .ok (decide (q > 0))
  | .pynone => .error .typeError
  | .coroutine => .error .typeError

/-- Lift an optional float into a Python value. -/
def PyVal.ofOption : Option ℚ → PyVal
  | some q => .num q
  | none => .pynone

/-- Python truthiness of an optional float (a pydantic field that may be
None): some 0.0 is falsy. -/
def optTruthy (o : Option ℚ) : Bool :=
  (PyVal.ofOption o).truthy

/-- The collaborators TradingAgent._process_signals consults while handling
one signal: the portfolio returned by get_account_balance (and whether that
fetch succeeds), the market-data fallback, and the adapter's create_order
treated as an oracle (an .error result models a raised exception). -/
structure AgentEnv where
  balance_fetch_ok : Bool := true
  balance_portfolio : AgentPortfolio := {}
  has_market_data_source : Bool := false
  mds_ticker_last : Option ℚ := none
  place_order : OrderRequest → Except PyError ExecutedOrder

/-- How TradingAgent._process_signals disposes of one signal when no
exception escapes: skipped (continue), caught order error (the try/except
around create_order, including the generic except at line 210), or an order
placed and propagated to the strategy. -/
inductive SignalOutcome
  | holdNoAction
  | skippedBalanceFetchFailed
  | skippedNoQuantityInfo
  | skippedNoPrice
  | skippedInvalidPrice
  | skippedDustQuantity
  | orderErrorCaught (e : PyError)
  | orderPlaced (req : OrderRequest) (eo : ExecutedOrder)
deriving Repr, DecidableEq

/-- The order-submission tail of TradingAgent._process_signals
(lines 167-211): dust-quantity guard, order-type choice (LIMIT iff the
signal carries a price), and the try/except around create_order, which
catches every exception class raised there. -/
def buildAndPlace (env : AgentEnv) (signal : TradingSignal)
    (order_quantity_base : ℚ) (target_price : Option ℚ) : SignalOutcome :=
  if order_quantity_base ≤ 1/1000000000 then .skippedDustQuantity
  else
    let order_type_to_place :=
      if signal.price.isSome then OrderType.limit else OrderType.market
    let req : OrderRequest :=
      { symbol := signal.symbol
        action := signal.action
        order_type := order_type_to_place
        quantity := order_quantity_base
        price := if order_type_to_place = .limit then target_price else none
        strategy_name := signal.strategy_name }
    match env.place_order req with
    | .error e => .orderErrorCaught e
    | .ok eo => .orderPlaced req eo

/-- One iteration of the signal loop in TradingAgent._process_signals
(lines 100-211). An .error result is an exception raised outside the
create_order try/except; it propagates out of the loop and aborts the
cycle. The call that fetches the adapter price for a percentage-quantity
BUY (line 135) is an async method invoked without await, so its value is a
coroutine object, not a float. -/
def processSignal (env : AgentEnv) (signal : TradingSignal) :
    Except PyError SignalOutcome :=
  if signal.action = .hold then .ok .holdNoAction
  else
    match splitSymbol signal.symbol with
    | none => .error .valueError
    | some (base_currency, quote_currency) =>
        if ¬ env.balance_fetch_ok then .ok .skippedBalanceFetchFailed
        else
          let available_quote_balance :=
            Dict.getD env.balance_portfolio.cash_balance quote_currency 0
          let available_base_balance :=
            Dict.getD env.balance_portfolio.asset_holdings base_currency 0
          match signal.action with
          | .buy =>
              if optTruthy signal.quantity_absolute then
                .ok (buildAndPlace env signal (signal.quantity_absolute.getD 0)
                      signal.price)
              else if optTruthy signal.quantity_percentage then
                let target0 : PyVal := PyVal.ofOption signal.price
                let fetched : Option PyVal :=
                  if ¬ target0.truthy then
                    -- fetched_price = adapter.get_current_price(symbol):
                    -- not awaited, hence a (truthy) coroutine object
                    let fetched1 : PyVal := PyVal.coroutine
                    let fetched2 : PyVal :=
                      if ¬ fetched1.truthy ∧ env.has_market_data_source then
                        PyVal.ofOption env.mds_ticker_last
                      else fetched1
                    if ¬ fetched2.truthy then none else some fetched2
                  else some target0
                match fetched with
                | none => .ok .skippedNoPrice
                | some target_price =>
                    match target_price.gtZero with
                    | .error e => .error e
                    | .ok true =>
                        match target_price with
                        | .num p =>
                            .ok (buildAndPlace env signal
                                  (available_quote_balance *
                                    signal.quantity_percentage.getD 0 / p)
                                  (some p))
                        | _ => .error .typeError
                    | .ok false => .ok .skippedInvalidPrice
              else .ok .skippedNoQuantityInfo
          | .sell =>
              if optTruthy signal.quantity_absolute then
                .ok (buildAndPlace env signal (signal.quantity_absolute.getD 0)
                      signal.price)
              else if optTruthy signal.quantity_percentage then
                .ok (buildAndPlace env signal
                      (available_base_balance * signal.quantity_percentage.getD 0)
                      signal.price)
              else .ok .skippedNoQuantityInfo
          | .hold => .ok .holdNoAction

/-- The signal loop of TradingAgent._process_signals: signals are handled
in order; an exception escaping one iteration aborts the remainder of the
cycle. -/
def processSignals (env : AgentEnv) :
    List TradingSignal → Except PyError (List SignalOutcome)
  | [] => .ok []
  | s :: rest =>
      match processSignal env s with
      | .error e => .error e
      | .ok o =>
          match processSignals env rest with
          | .error e => .error e
          | .ok os => .ok (o :: os)

/-- The adapter's startup call inside TradingAgent.initialize_components:
an .error models the initialize() coroutine raising. -/
def adapterInitResult (raises : Bool) : Except PyError Unit :=
  if raises then .error .adapterInitFailure else .ok ()

/-- TradingAgent.initialize_components (lines 64-90), restricted to the
adapter part: the try/except catches any exception from the adapter's
initialize(), logs it, and continues — it is never re-raised. Returns
whether the adapter came up. -/
def initComponents (hasAdapter adapterInitRaises : Bool) : Bool :=
  if hasAdapter then
    match adapterInitResult adapterInitRaises with
    | .ok _ => true
    | .error _ => false
  else false

/-- What TradingAgent.start (lines 281-300) does. -/
inductive StartOutcome
  | noStrategies
  | noAdapter
  | runningLoop (adapterInitialized : Bool)
deriving Repr, DecidableEq

/-- TradingAgent.start: refuse only when no strategies are loaded or no
adapter is configured; otherwise run initialize_components, set is_running
and enter the trading loop — whether or not the adapter initialized. -/
def startAgent (hasStrategies hasAdapter adapterInitRaises : Bool) : StartOutcome :=
  if ¬ hasStrategies then .noStrategies
  else if ¬ hasAdapter then .noAdapter
  else .runningLoop (initComponents hasAdapter adapterInitRaises)

/-! Observation helpers on a create_order / settle result: project the
returned order and the successor adapter state out of the Except. -/

/-- The order returned by a successful call. -/
def resultOrder : Except PyError (ExecutedOrder × MockState) → Option ExecutedOrder
  | .ok (o, _) => some o
  | .error _ => none

/-- The adapter state after a successful call. -/
def resultState : Except PyError (ExecutedOrder × MockState) → Option MockState
  | .ok (_, st) => some st
  | .error _ => none

/-- Status of the returned order. -/
def resultStatus (r : Except PyError (ExecutedOrder × MockState)) : Option String :=
  (resultOrder r).map ExecutedOrder.status

/-- Fill price of the returned order. -/
def resultPrice (r : Except PyError (ExecutedOrder × MockState)) : Option ℚ :=
  (resultOrder r).map ExecutedOrder.price

/-- Commission charged on the returned order. -/
def resultFee (r : Except PyError (ExecutedOrder × MockState)) : Option ℚ :=
  (resultOrder r).map ExecutedOrder.fee

/-- The portfolio after a successful call. -/
def resultPortfolio (r : Except PyError (ExecutedOrder × MockState)) :
    Option AgentPortfolio :=
  (resultState r).map MockState.portfolio

/-- The trade history after a successful call. -/
def resultHistory (r : Except PyError (ExecutedOrder × MockState)) :
    Option (List ExecutedOrder) :=
  (resultState r).map MockState.trade_history

/-- The cash balance of one currency after a successful call (default 0). -/
def resultCashD (currency : String) (r : Except PyError (ExecutedOrder × MockState)) :
    Option ℚ :=
  (resultState r).map (fun st => Dict.getD st.portfolio.cash_balance currency 0)

/-- The holding of one asset after a successful call (default 0). -/
def resultAssetD (asset : String) (r : Except PyError (ExecutedOrder × MockState)) :
    Option ℚ :=
  (resultState r).map (fun st => Dict.getD st.portfolio.asset_holdings asset 0)

/-- Whether a successful call left its returned order registered in the
open-orders index under its own id. -/
def recordedOpen : Except PyError (ExecutedOrder × MockState) → Bool
  | .ok (o, st') => decide (Dict.get? st'.open_orders o.order_id = some o)
  | .error _ => false

/-! Concrete scenario data used by the claims. -/

/-- The spec's concrete scenario: 10000 USDT cash, reference price 50000
for BTC/USDT, slippage 0.001, commission 0.001, fill probability 1 (all
the adapter's defaults). -/
def scenarioState : MockState :=
  { portfolio := { cash_balance := [("USDT", (10000 : ℚ))] }
    current_sim_prices := [("BTC/USDT", (50000 : ℚ))] }

/-- MARKET BUY of 0.1 BTC/USDT. -/
def marketBuy01 : OrderRequest :=
  { symbol := "BTC/USDT", action := .buy, order_type := .market, quantity := 1/10 }

/-- The scenario state with fill_probability 0. -/
def rejectAllState : MockState := { scenarioState with fill_probability := 0 }

/-- LIMIT BUY of 0.1 BTC/USDT at limit price 49999, strictly below the
configured reference price 50000. -/
def limitBuy49999 : OrderRequest :=
  { symbol := "BTC/USDT", action := .buy, order_type := .limit, quantity := 1/10
    price := some 49999 }

/-- A state for a degenerate symbol whose base and quote currency coincide:
1.05 AAA of cash, reference price 1 for AAA/AAA, commission rate 0.1. -/
def sameCurrencyState : MockState :=
  { portfolio := { cash_balance := [("AAA", (21/20 : ℚ))] }
    current_sim_prices := [("AAA/AAA", (1 : ℚ))]
    commission_rate := 1/10 }

/-- LIMIT BUY of 1 AAA/AAA at limit price 1 (crosses, settles at price 1). -/
def sameCurrencyBuy : OrderRequest :=
  { symbol := "AAA/AAA", action := .buy, order_type := .limit, quantity := 1
    price := some 1 }

/-- The FILLED order produced by the scenario MARKET BUY with zero noise
and fallback id w3. -/
def filledOrderW : ExecutedOrder :=
  { order_id := "w3", symbol := "BTC/USDT", action := .buy, order_type := .market
    price := 50050, quantity := 1/10, fee := 5005/1000, fee_currency := some "USDT"
    status := "FILLED" }

/-- The adapter state after the scenario MARKET BUY with zero noise. -/
def filledStateW : MockState :=
  { portfolio := { cash_balance := [("USDT", (4989995/1000 : ℚ))]
                   asset_holdings := [("BTC", (1/10 : ℚ))] }
    current_sim_prices := [("BTC/USDT", (50000 : ℚ))]
    trade_history := [filledOrderW] }

/-- A state with 1000 USDT cash and no configured simulated price at
all. -/
def noPriceState : MockState :=
  { portfolio := { cash_balance := [("USDT", (1000 : ℚ))] } }

/-- MARKET BUY of 1 XYZ/USDT, a symbol with no configured price. -/
def noPriceBuy : OrderRequest :=
  { symbol := "XYZ/USDT", action := .buy, order_type := .market, quantity := 1 }

/-- The initial adapter state of the round-trip property: cash c in USDT,
reference price p for BTC/USDT, slippage s, commission rate cr. -/
def roundTripStart (c p s cr : ℚ) : MockState :=
  { portfolio := { cash_balance := [("USDT", c)] }
    current_sim_prices := [("BTC/USDT", p)]
    slippage_factor := s
    commission_rate := cr }

/-- MARKET BUY of q BTC/USDT. -/
def marketBuyQ (q : ℚ) : OrderRequest :=
  { symbol := "BTC/USDT", action := .buy, order_type := .market, quantity := q }

/-- MARKET SELL of q BTC/USDT. -/
def marketSellQ (q : ℚ) : OrderRequest :=
  { symbol := "BTC/USDT", action := .sell, order_type := .market, quantity := q }

/-- BUY then immediately SELL the same quantity through create_order, both
with a passing fill roll (draw 0) and zero price noise (draw 1/2) so the
reference price is unchanged between the legs. -/
def roundTrip (c p s cr q : ℚ) :
    Except PyError (ExecutedOrder × ExecutedOrder × MockState) :=
  match (roundTripStart c p s cr).create_order (marketBuyQ q) 0 (1/2) "b1" with
  | .error e => .error e
  | .ok (o1, st1) =>
      match st1.create_order (marketSellQ q) 0 (1/2) "s1" with
      | .error e => .error e
      | .ok (o2, st2) => .ok (o1, o2, st2)

/-- Statuses of the two round-trip legs. -/
def rtStatuses (c p s cr q : ℚ) : Option (String × String) :=
  match roundTrip c p s cr q with
  | .ok (o1, o2, _) => some (o1.status, o2.status)
  | .error _ => none

/-- USDT cash after the round trip. -/
def rtCash (c p s cr q : ℚ) : Option ℚ :=
  match roundTrip c p s cr q with
  | .ok (_, _, st2) => some (Dict.getD st2.portfolio.cash_balance "USDT" 0)
  | .error _ => none

/-- BTC holding after the round trip. -/
def rtAsset (c p s cr q : ℚ) : Option ℚ :=
  match roundTrip c p s cr q with
  | .ok (_, _, st2) => some (Dict.getD st2.portfolio.asset_holdings "BTC" 0)
  | .error _ => none

/-- Total commission paid across the two round-trip legs. -/
def rtFees (c p s cr q : ℚ) : Option ℚ :=
  match roundTrip c p s cr q with
  | .ok (o1, o2, _) => some (o1.fee + o2.fee)
  | .error _ => none

/-- A flat MA-crossover strategy state on BTC/USDT (defaults of the
source). -/
def maFlat : MAState := {}

/-- Indicator values exhibiting a golden cross (short SMA crossing from
below to above the long SMA). -/
def goldenInp : MAIndicators :=
  { prev_sma_short := 1, prev_sma_long := 2, sma_short := 3, sma_long := 2
    current_price := 50000 }

/-- A read-only portfolio snapshot with 10000 USDT. -/
def portfolio10k : AgentPortfolio := { cash_balance := [("USDT", (10000 : ℚ))] }

/-- A REJECTED BUY order on BTC/USDT, as returned by the mock adapter's
non-fill roll. -/
def rejectedBuyOrder : ExecutedOrder :=
  { order_id := "r1", symbol := "BTC/USDT", action := .buy, order_type := .market
    price := 0, quantity := 1/10, status := "REJECTED" }

/-- A FILLED BUY order the place_order oracle of the C4 scenario would
return if it were ever reached. -/
def dummyFilled : ExecutedOrder :=
  { order_id := "x1", symbol := "BTC/USDT", action := .buy, order_type := .market
    price := 50000, quantity := 1/20, status := "FILLED" }

/-- A fully healthy collaborator environment: balance fetch succeeds with
10000 USDT, the adapter has a configured price, a market data source with a
ticker is available, and create_order always fills. -/
def healthyEnv : AgentEnv :=
  { balance_portfolio := { cash_balance := [("USDT", (10000 : ℚ))] }
    has_market_data_source := true
    mds_ticker_last := some 50000
    place_order := fun _ => .ok dummyFilled }

/-- A percentage-quantity BUY signal without an explicit price — the shape
both strategies emit for a market BUY intent. -/
def pctBuySignal : TradingSignal :=
  { symbol := "BTC/USDT", action := .buy, quantity_percentage := some (1/20)
    strategy_name := some "SentimentLLM" }

/-- An MA-crossover state currently holding a position (the optimistic
flag set after an emitted BUY). -/
def maActive : MAState := { position_active := true }

/-- A sentiment-strategy state currently holding a BTC position. -/
def sentActive : SentimentState := { active_positions := [("BTC", true)] }

/-- The FILLED order of the round-trip BUY leg. -/
def rtBuyOrder (q p s cr : ℚ) : ExecutedOrder :=
  { order_id := "b1", client_order_id := none, symbol := "BTC/USDT",
    action := .buy, order_type := .market, price := p * (1 + s),
    quantity := q, fee := q * (p * (1 + s)) * cr,
    fee_currency := some "USDT", status := "FILLED" }

/-- The FILLED order of the round-trip SELL leg. -/
def rtSellOrder (q p s cr : ℚ) : ExecutedOrder :=
  { order_id := "s1", client_order_id := none, symbol := "BTC/USDT",
    action := .sell, order_type := .market, price := p * (1 - s),
    quantity := q, fee := q * (p * (1 - s)) * cr,
    fee_currency := some "USDT", status := "FILLED" }

/-- The adapter state after the round-trip BUY leg. -/
def rtMidState (q c p s cr : ℚ) : MockState :=
  { portfolio :=
      { cash_balance :=
          [("USDT", c - q * (p * (1 + s)) - q * (p * (1 + s)) * cr)]
        asset_holdings := [("BTC", q)] }
    open_orders := []
    trade_history := [rtBuyOrder q p s cr]
    current_sim_prices := [("BTC/USDT", p)]
    slippage_factor := s
    commission_rate := cr
    fill_probability := 1 }

/-- The adapter state after both round-trip legs. -/
def rtEndState (q c p s cr : ℚ) : MockState :=
  { portfolio :=
      { cash_balance :=
          [("USDT", c - q * (p * (1 + s)) - q * (p * (1 + s)) * cr
              + q * (p * (1 - s)) - q * (p * (1 - s)) * cr)]
        asset_holdings := [("BTC", 0)] }
    open_orders := []
    trade_history := [rtBuyOrder q p s cr, rtSellOrder q p s cr]
    current_sim_prices := [("BTC/USDT", p)]
    slippage_factor := s
    commission_rate := cr
    fill_probability := 1 }

end CTB

namespace CTB

/-! Shared lemmas about the dictionary and portfolio operations. -/

theorem Dict.get?_set_self {α : Type} (m : Dict α) (k : String) (v : α) :
    Dict.get? (Dict.set m k v) k = some v := by
  induction m with
  | nil => simp [Dict.set, Dict.get?]
  | cons p rest ih =>
      by_cases h : p.1 = k
      · simp [Dict.set, h, Dict.get?]
      · simp [Dict.set, h, Dict.get?, ih]

theorem Dict.getD_set_self {α : Type} (m : Dict α) (k : String) (v : α) (d : α) :
    Dict.getD (Dict.set m k v) k d = v := by
  simp [Dict.getD, Dict.get?_set_self]

theorem update_cash_cash (p : AgentPortfolio) (c : String) (d : ℚ) :
    Dict.getD (p.update_cash c d).cash_balance c 0 =
      Dict.getD p.cash_balance c 0 + d := by
  simp [AgentPortfolio.update_cash, Dict.getD_set_self]

theorem update_cash_assets (p : AgentPortfolio) (c : String) (d : ℚ) :
    (p.update_cash c d).asset_holdings = p.asset_holdings := rfl

theorem update_asset_cash (p : AgentPortfolio) (a : String) (d : ℚ) :
    (p.update_asset a d).cash_balance = p.cash_balance := rfl

theorem update_asset_assets (p : AgentPortfolio) (a : String) (d : ℚ) :
    Dict.getD (p.update_asset a d).asset_holdings a 0 =
      Dict.getD p.asset_holdings a 0 + d := by
  simp [AgentPortfolio.update_asset, Dict.getD_set_self]

theorem splitSymbol_btc : splitSymbol "BTC/USDT" = some ("BTC", "USDT") := by decide

theorem splitSymbol_aaa : splitSymbol "AAA/AAA" = some ("AAA", "AAA") := by decide

theorem splitSymbol_xyz : splitSymbol "XYZ/USDT" = some ("XYZ", "USDT") := by decide

/-- C1: the claim as frozen is stated for every BUY that reaches
settlement, with the sufficiency threshold cost + commission. On the
degenerate symbol "AAA/AAA" (base = quote) the code checks only cost:
with cash 1.05, cost 1 and commission 0.1 the balance is below
cost + commission, yet the order settles FILLED and the cash balance is
driven to −0.05 instead of InsufficientFundsError being raised. -/
theorem C1_counterexample :
    Dict.getD sameCurrencyState.portfolio.cash_balance "AAA" 0 <
      sameCurrencyBuy.quantity * 1 +
        sameCurrencyBuy.quantity * 1 * sameCurrencyState.commission_rate ∧
    resultStatus (sameCurrencyState.create_order sameCurrencyBuy 0 (1/2) "c1") =
      some "FILLED" ∧
    resultCashD "AAA" (sameCurrencyState.create_order sameCurrencyBuy 0 (1/2) "c1") =
      some (-(1/20)) := by
  norm_num +decide [MockState.create_order, MockState.settle, MockState.get_sim_price,
    splitSymbol_aaa, Dict.get?, Dict.getD, Dict.set, AgentPortfolio.update_cash,
    AgentPortfolio.update_asset, pyOrId, resultStatus, resultOrder, resultState,
    resultCashD, sameCurrencyState, sameCurrencyBuy]

/-- C1 (amended): for every BUY that reaches settlement with distinct base
and quote currencies, the code raises InsufficientFundsError exactly when
the quote cash balance is below cost + commission — the raise happens
before any mutation, so the embedded call returns no successor state and
the adapter's portfolio is untouched — and otherwise settles FILLED,
debits the quote balance by cost + commission and credits the base asset
by the quantity. When base = quote the sufficiency check omits the
commission (see the counterexample). -/
theorem C1_buy_settlement (st : MockState) (req : OrderRequest)
    (base quote : String) (ep : ℚ) (fid : String)
    (hact : req.action = .buy) (hbq : quote ≠ base) :
    (Dict.getD st.portfolio.cash_balance quote 0 <
        req.quantity * ep + req.quantity * ep * st.commission_rate →
      st.settle req base quote ep fid = .error .insufficientFunds) ∧
    (¬ (Dict.getD st.portfolio.cash_balance quote 0 <
        req.quantity * ep + req.quantity * ep * st.commission_rate) →
      resultStatus (st.settle req base quote ep fid) = some "FILLED" ∧
      resultCashD quote (st.settle req base quote ep fid) =
        some (Dict.getD st.portfolio.cash_balance quote 0 -
          (req.quantity * ep + req.quantity * ep * st.commission_rate)) ∧
      resultAssetD base (st.settle req base quote ep fid) =
        some (Dict.getD st.portfolio.asset_holdings base 0 + req.quantity)) := by
  constructor
  · intro h
    simp only [MockState.settle, hact]
    rw [if_neg hbq, if_pos h]
  · intro h
    simp only [MockState.settle, hact]
    rw [if_neg hbq, if_neg h]
    refine ⟨rfl, ?_, ?_⟩
    · simp only [resultCashD, resultState, Option.map_some']
      rw [Option.some.injEq]
      rw [update_asset_cash, update_cash_cash, update_cash_cash]
      ring
    · simp only [resultAssetD, resultState, Option.map_some']
      rw [Option.some.injEq]
      rw [update_asset_assets, update_cash_assets, update_cash_assets]

/-- C1: witness — the amended theorem applied to the spec's concrete
scenario with sufficient funds (BUY of 0.1 BTC at execution price 50050
against 10000 USDT). -/
theorem C1_witness :
    resultStatus (scenarioState.settle marketBuy01 "BTC" "USDT" 50050 "w1") =
      some "FILLED" ∧
    resultCashD "USDT" (scenarioState.settle marketBuy01 "BTC" "USDT" 50050 "w1") =
      some (Dict.getD scenarioState.portfolio.cash_balance "USDT" 0 -
        (marketBuy01.quantity * 50050 +
          marketBuy01.quantity * 50050 * scenarioState.commission_rate)) ∧
    resultAssetD "BTC" (scenarioState.settle marketBuy01 "BTC" "USDT" 50050 "w1") =
      some (Dict.getD scenarioState.portfolio.asset_holdings "BTC" 0 +
        marketBuy01.quantity) :=
  (C1_buy_settlement scenarioState marketBuy01 "BTC" "USDT" 50050 "w1" rfl
    (by decide)).2 (by norm_num +decide [scenarioState, marketBuy01, Dict.getD, Dict.get?])

/-- C2: the claim as frozen asserts execution price exactly 50050
(reference × (1 + slippage)). The code scales the reference by a random
noise factor first: with noise draw 0 (a possible value of
random.random()), the same MARKET BUY fills at 50037.4875, not 50050. -/
theorem C2_counterexample :
    ((0:ℚ) ≤ 0 ∧ (0:ℚ) < 1) ∧
    resultStatus (scenarioState.create_order marketBuy01 0 0 "c2") = some "FILLED" ∧
    resultPrice (scenarioState.create_order marketBuy01 0 0 "c2") =
      some (4002999/80) ∧
    (4002999/80 : ℚ) ≠ 50050 := by
  norm_num +decide [MockState.create_order, MockState.settle, MockState.get_sim_price,
    splitSymbol_btc, Dict.get?, Dict.getD, Dict.set, AgentPortfolio.update_cash,
    AgentPortfolio.update_asset, pyOrId, resultStatus, resultOrder, resultState,
    resultPrice, scenarioState, marketBuy01]

/-- C2 (amended): the spec's concrete scenario holds exactly when the
price-noise draw is 0.5 (zero noise): for every passing fill roll, the
MARKET BUY of 0.1 BTC/USDT fills at price 50050, leaving 4989.995 USDT and
0.1 BTC. -/
theorem C2_scenario (rF : ℚ) (h : rF ≤ 1) :
    resultStatus (scenarioState.create_order marketBuy01 rF (1/2) "f2") =
      some "FILLED" ∧
    resultPrice (scenarioState.create_order marketBuy01 rF (1/2) "f2") =
      some 50050 ∧
    resultCashD "USDT" (scenarioState.create_order marketBuy01 rF (1/2) "f2") =
      some (4989995/1000) ∧
    resultAssetD "BTC" (scenarioState.create_order marketBuy01 rF (1/2) "f2") =
      some (1/10) := by
  have hg : ¬ (rF > scenarioState.fill_probability) := by
    rw [show scenarioState.fill_probability = 1 from rfl]
    exact not_lt.mpr h
  unfold MockState.create_order
  rw [if_neg hg]
  norm_num +decide [MockState.settle, MockState.get_sim_price,
    splitSymbol_btc, Dict.get?, Dict.getD, Dict.set, AgentPortfolio.update_cash,
    AgentPortfolio.update_asset, pyOrId, resultStatus, resultOrder, resultState,
    resultCashD, resultAssetD, resultPrice, scenarioState, marketBuy01]

/-- C2: witness — the amended scenario at fill roll 0. -/
theorem C2_witness :
    resultStatus (scenarioState.create_order marketBuy01 0 (1/2) "f2") =
      some "FILLED" ∧
    resultPrice (scenarioState.create_order marketBuy01 0 (1/2) "f2") =
      some 50050 ∧
    resultCashD "USDT" (scenarioState.create_order marketBuy01 0 (1/2) "f2") =
      some (4989995/1000) ∧
    resultAssetD "BTC" (scenarioState.create_order marketBuy01 0 (1/2) "f2") =
      some (1/10) :=
  C2_scenario 0 (by norm_num)

end CTB

namespace CTB

theorem settle_recording (st : MockState) (req : OrderRequest) (base quote : String)
    (ep : ℚ) (fid : String) (o : ExecutedOrder) (st' : MockState)
    (ho : resultOrder (st.settle req base quote ep fid) = some o)
    (hs : resultState (st.settle req base quote ep fid) = some st') :
    o.status = "FILLED" ∧ o ∈ st'.trade_history := by
  unfold MockState.settle at ho hs
  cases hact : req.action <;>
    simp only [hact] at ho hs <;>
    (try split_ifs at ho hs) <;>
      first
        | (simp [resultOrder] at ho
           done)
        | (simp only [resultOrder, resultState, Option.some.injEq] at ho hs
           subst ho
           subst hs
           exact ⟨rfl, by simp⟩)

/-- C3: with fill_probability 0 and fill roll 0.5, create_order returns a
REJECTED order but records it nowhere: trade_history and the open-orders
index are both still empty, contradicting the claim that FILLED/REJECTED
orders are appended to the history. -/
theorem C3_counterexample :
    resultStatus (rejectAllState.create_order marketBuy01 (1/2) (1/2) "c3") =
      some "REJECTED" ∧
    resultHistory (rejectAllState.create_order marketBuy01 (1/2) (1/2) "c3") =
      some [] ∧
    (resultState (rejectAllState.create_order marketBuy01 (1/2) (1/2) "c3")).map
      MockState.open_orders = some [] := by
  norm_num +decide [MockState.create_order, resultStatus, resultOrder, resultState,
    resultHistory, rejectAllState, scenarioState, marketBuy01]

/-- C3 (amended): for every order returned by create_order, a FILLED order
has been appended to trade_history and an OPEN order has been inserted
into the open-orders index under its own id, but a REJECTED order is
returned with the adapter state unchanged — it is recorded nowhere. -/
theorem C3_recording (st : MockState) (req : OrderRequest) (rF rN : ℚ) (fid : String)
    (o : ExecutedOrder) (st' : MockState)
    (ho : resultOrder (st.create_order req rF rN fid) = some o)
    (hs : resultState (st.create_order req rF rN fid) = some st') :
    (o.status = "FILLED" → o ∈ st'.trade_history) ∧
    (o.status = "OPEN" → Dict.get? st'.open_orders o.order_id = some o) ∧
    (o.status = "REJECTED" → st' = st) := by
  unfold MockState.create_order at ho hs
  by_cases h1 : rF > st.fill_probability
  · rw [if_pos h1] at ho hs
    simp only [resultOrder, resultState, Option.some.injEq] at ho hs
    subst ho
    subst hs
    refine ⟨?_, ?_, ?_⟩ <;> intro h
    · simp at h
    · simp at h
    · rfl
  · rw [if_neg h1] at ho hs
    rcases hsym : splitSymbol req.symbol with _ | ⟨base, quote⟩
    · simp only [hsym] at ho hs
      simp [resultOrder] at ho
    · simp only [hsym] at ho hs
      cases hot : req.order_type with
      | limit =>
          simp only [hot] at ho hs
          cases hp : req.price with
          | none =>
              simp only [hp] at ho hs
              simp [resultOrder] at ho
          | some lp =>
              simp only [hp] at ho hs
              by_cases hb : req.action = .buy ∧ st.get_sim_price req.symbol rN > lp
              · rw [if_pos hb] at ho hs
                simp only [resultOrder, resultState, Option.some.injEq] at ho hs
                subst ho
                subst hs
                refine ⟨?_, ?_, ?_⟩ <;> intro h
                · simp at h
                · exact Dict.get?_set_self _ _ _
                · simp at h
              · rw [if_neg hb] at ho hs
                by_cases hsl : req.action = .sell ∧ st.get_sim_price req.symbol rN < lp
                · rw [if_pos hsl] at ho hs
                  simp only [resultOrder, resultState, Option.some.injEq] at ho hs
                  subst ho
                  subst hs
                  refine ⟨?_, ?_, ?_⟩ <;> intro h
                  · simp at h
                  · exact Dict.get?_set_self _ _ _
                  · simp at h
                · rw [if_neg hsl] at ho hs
                  have hrec := settle_recording st req base quote lp fid o st' ho hs
                  refine ⟨fun _ => hrec.2, ?_, ?_⟩ <;> intro h <;>
                    rw [hrec.1] at h <;> exact absurd h (by decide)
      | market =>
          simp only [hot] at ho hs
          have hrec := settle_recording st req base quote _ fid o st' ho hs
          refine ⟨fun _ => hrec.2, ?_, ?_⟩ <;> intro h <;>
            rw [hrec.1] at h <;> exact absurd h (by decide)

/-- C3: witness — the amended theorem applied to the concrete scenario
MARKET BUY, whose FILLED order is appended to the trade history. -/
theorem C3_witness :
    filledOrderW.status = "FILLED" ∧ filledOrderW ∈ filledStateW.trade_history := by
  have h := C3_recording scenarioState marketBuy01 0 (1/2) "w3" filledOrderW
    filledStateW
    (by norm_num +decide [MockState.create_order, MockState.settle,
      MockState.get_sim_price, splitSymbol_btc, Dict.get?, Dict.getD, Dict.set,
      AgentPortfolio.update_cash, AgentPortfolio.update_asset, pyOrId, resultOrder,
      scenarioState, marketBuy01, filledOrderW, ExecutedOrder.mk.injEq])
    (by norm_num +decide [MockState.create_order, MockState.settle,
      MockState.get_sim_price, splitSymbol_btc, Dict.get?, Dict.getD, Dict.set,
      AgentPortfolio.update_cash, AgentPortfolio.update_asset, pyOrId, resultState,
      scenarioState, marketBuy01, filledStateW, filledOrderW, MockState.mk.injEq,
      AgentPortfolio.mk.injEq])
  exact ⟨rfl, h.1 rfl⟩

/-- C4: the code contradicts the claim. In TradingAgent._process_signals a
percentage-quantity BUY signal without a price calls the async
get_current_price without await (line 135); the resulting coroutine object
is truthy, so both skip guards pass, and the comparison target_price > 0
(line 149) raises TypeError outside the try/except that guards
create_order — the exception aborts the whole cycle even though the
adapter has a configured price, a market data source is available, and
order placement would succeed. -/
theorem C4_cycle_aborts :
    processSignals healthyEnv [pctBuySignal] = .error .typeError := by
  norm_num +decide [processSignals, processSignal, healthyEnv, pctBuySignal,
    splitSymbol_btc, optTruthy, PyVal.ofOption, PyVal.truthy, PyVal.gtZero]

end CTB

namespace CTB

/-- C5: the claim as frozen compares the limit price with the reference
price. The code compares it with the noise-scaled simulated price: with
reference 50000, limit 49999 (strictly below the reference) and noise draw
0, the simulated price is 49987.5 ≤ limit, so the LIMIT BUY settles FILLED
instead of resting OPEN. -/
theorem C5_counterexample :
    Dict.get? scenarioState.current_sim_prices "BTC/USDT" = some 50000 ∧
    limitBuy49999.price = some 49999 ∧ (49999 : ℚ) < 50000 ∧
    ((0:ℚ) ≤ 0 ∧ (0:ℚ) < 1) ∧
    resultStatus (scenarioState.create_order limitBuy49999 0 0 "c5") =
      some "FILLED" := by
  norm_num +decide [MockState.create_order, MockState.settle, MockState.get_sim_price,
    splitSymbol_btc, Dict.get?, Dict.getD, Dict.set, AgentPortfolio.update_cash,
    AgentPortfolio.update_asset, pyOrId, resultStatus, resultOrder, scenarioState,
    limitBuy49999]

/-- C5 (amended): a LIMIT BUY whose limit price is strictly below the
noise-scaled simulated price at submission rests OPEN: create_order
returns the order with status OPEN, moves no funds (the portfolio and the
trade history are unchanged), and inserts it into the open-orders index
under its own id; the mock has no background matching, so nothing later
transitions it. Because the noise factor stays within ±0.025 percent, a
limit more than 0.025 percent below the reference always rests OPEN. -/
theorem C5_limit_buy_rests_open (st : MockState) (req : OrderRequest)
    (lp rF rN : ℚ) (fid : String) (base quote : String)
    (hfill : ¬ (rF > st.fill_probability))
    (hsym : splitSymbol req.symbol = some (base, quote))
    (htype : req.order_type = .limit)
    (hact : req.action = .buy)
    (hprice : req.price = some lp)
    (hcross : st.get_sim_price req.symbol rN > lp) :
    resultStatus (st.create_order req rF rN fid) = some "OPEN" ∧
    resultPortfolio (st.create_order req rF rN fid) = some st.portfolio ∧
    resultHistory (st.create_order req rF rN fid) = some st.trade_history ∧
    recordedOpen (st.create_order req rF rN fid) = true := by
  unfold MockState.create_order
  rw [if_neg hfill]
  simp only [hsym, htype, hprice]
  rw [if_pos ⟨hact, hcross⟩]
  refine ⟨rfl, rfl, rfl, ?_⟩
  simp [recordedOpen, Dict.get?_set_self]

/-- C5: witness — a LIMIT BUY at 49999 against reference 50000 with zero
noise rests OPEN and moves no funds. -/
theorem C5_witness :
    resultStatus (scenarioState.create_order limitBuy49999 0 (1/2) "w5") =
      some "OPEN" ∧
    resultPortfolio (scenarioState.create_order limitBuy49999 0 (1/2) "w5") =
      some scenarioState.portfolio ∧
    resultHistory (scenarioState.create_order limitBuy49999 0 (1/2) "w5") =
      some scenarioState.trade_history ∧
    recordedOpen (scenarioState.create_order limitBuy49999 0 (1/2) "w5") = true :=
  C5_limit_buy_rests_open scenarioState limitBuy49999 49999 0 (1/2) "w5"
    "BTC" "USDT" (by norm_num [scenarioState]) (by decide) rfl rfl rfl
    (by norm_num [MockState.get_sim_price, scenarioState, limitBuy49999, Dict.get?])

/-- C6: the claim as frozen says on_order_update corrects the flag so a
REJECTED outcome does not leave it wrong. Concretely: a golden cross emits
a BUY signal and optimistically sets position_active; when the order comes
back REJECTED, on_order_update (which acts only on FILLED) leaves the flag
true — the position flag remains active after a rejected BUY. -/
theorem C6_counterexample :
    ((maFlat.generate_signals "ma" goldenInp portfolio10k).1.map TradingSignal.action =
      [OrderAction.buy]) ∧
    (maFlat.generate_signals "ma" goldenInp portfolio10k).2.position_active = true ∧
    rejectedBuyOrder.status = "REJECTED" ∧ rejectedBuyOrder.action = .buy ∧
    rejectedBuyOrder.symbol = maFlat.symbol ∧
    ((maFlat.generate_signals "ma" goldenInp portfolio10k).2.on_order_update
        rejectedBuyOrder).position_active = true := by
  norm_num +decide [MAState.generate_signals, MAState.on_order_update, maFlat,
    goldenInp, portfolio10k, rejectedBuyOrder, Dict.getD, Dict.get?, symbolQuote,
    symbolBase, splitSlash]

/-- C6 (amended): both strategies set their optimistic position flag when
they emit a non-HOLD signal, and on_order_update corrects the flag only
for orders with status FILLED — any non-FILLED outcome (REJECTED, OPEN,
CANCELED) leaves the strategy state, and hence an optimistically set flag,
unchanged. -/
theorem C6_position_flag_authority :
    (∀ (st : MAState) (eo : ExecutedOrder), eo.status ≠ "FILLED" →
        st.on_order_update eo = st) ∧
    (∀ (st : SentimentState) (eo : ExecutedOrder), eo.status ≠ "FILLED" →
        st.on_order_update eo = st) ∧
    (∀ (st : MAState) (name : String) (inp : MAIndicators)
        (portfolio : AgentPortfolio) (sig : TradingSignal),
        sig ∈ (st.generate_signals name inp portfolio).1 →
        (sig.action = .buy →
          (st.generate_signals name inp portfolio).2.position_active = true) ∧
        (sig.action = .sell →
          (st.generate_signals name inp portfolio).2.position_active = false)) ∧
    (∀ (st : SentimentState) (name : String) (portfolio : AgentPortfolio)
        (sb : String) (score : ℚ) (cp : Option ℚ),
        ((st.signal_for_symbol name portfolio sb score cp).1.action = .buy →
          Dict.getD
            (st.signal_for_symbol name portfolio sb score cp).2.active_positions
            sb false = true) ∧
        ((st.signal_for_symbol name portfolio sb score cp).1.action = .sell →
          Dict.getD
            (st.signal_for_symbol name portfolio sb score cp).2.active_positions
            sb false = false)) ∧
    (∀ (st : MAState) (eo : ExecutedOrder), eo.symbol = st.symbol →
        eo.status = "FILLED" →
        (eo.action = .buy → (st.on_order_update eo).position_active = true) ∧
        (eo.action = .sell → (st.on_order_update eo).position_active = false)) ∧
    (∀ (st : SentimentState) (eo : ExecutedOrder),
        symbolBase eo.symbol ∈ st.target_symbols → eo.status = "FILLED" →
        (eo.action = .buy →
          Dict.getD (st.on_order_update eo).active_positions
            (symbolBase eo.symbol) false = true) ∧
        (eo.action = .sell →
          Dict.getD (st.on_order_update eo).active_positions
            (symbolBase eo.symbol) false = false)) := by
  refine ⟨?_, ?_, ?_, ?_, ?_, ?_⟩
  · intro st eo h
    simp [MAState.on_order_update, h]
  · intro st eo h
    simp [SentimentState.on_order_update, h]
  · intro st name inp portfolio sig hmem
    unfold MAState.generate_signals at hmem ⊢
    split_ifs at hmem ⊢ <;> simp_all <;>
      split_ifs at hmem ⊢ <;> simp_all
  · intro st name portfolio sb score cp
    unfold SentimentState.signal_for_symbol
    split_ifs <;>
      constructor <;> intro ha <;> simp_all [Dict.getD_set_self]
  · intro st eo hsym hstat
    constructor <;> intro ha <;>
      simp [MAState.on_order_update, hsym, hstat, ha]
  · intro st eo hsym hstat
    constructor <;> intro ha <;>
      simp [SentimentState.on_order_update, hsym, hstat, ha, Dict.getD_set_self]

/-- C6: witness — a REJECTED BUY leaves a position-holding strategy state
unchanged for both strategies. -/
theorem C6_witness :
    MAState.on_order_update maActive rejectedBuyOrder = maActive ∧
    SentimentState.on_order_update sentActive rejectedBuyOrder = sentActive :=
  ⟨C6_position_flag_authority.1 maActive rejectedBuyOrder (by decide),
   C6_position_flag_authority.2.1 sentActive rejectedBuyOrder (by decide)⟩

/-- C7: the claim as frozen says adapter-initialization failure is fatal to
starting the Orchestrator. With strategies and an adapter configured and
an initialize() that raises, start still enters the trading loop (with the
adapter marked uninitialized). -/
theorem C7_counterexample :
    startAgent true true true = .runningLoop false := rfl

/-- C7 (amended): an exception from the adapter's initialize() is caught
and logged inside initialize_components and never re-raised; provided
strategies and an adapter are configured, TradingAgent.start always enters
the trading loop, recording only whether the adapter came up. -/
theorem C7_start_despite_adapter_failure (r : Bool) :
    startAgent true true r = .runningLoop (!r) := by
  cases r <;> decide

/-- C7: witness — the amended theorem at both values of the failure
flag. -/
theorem C7_witness :
    startAgent true true false = .runningLoop true ∧
    startAgent true true true = .runningLoop false :=
  ⟨C7_start_despite_adapter_failure false, C7_start_despite_adapter_failure true⟩

end CTB

namespace CTB

theorem C8_buy_leg (q c p s cr : ℚ)
    (hfunds : q * p * (1 + s) * (1 + cr) ≤ c) :
    (roundTripStart c p s cr).create_order (marketBuyQ q) 0 (1/2) "b1" =
      .ok (rtBuyOrder q p s cr, rtMidState q c p s cr) := by
  have hfill1 : ¬ ((0:ℚ) > (roundTripStart c p s cr).fill_probability) := by
    norm_num [roundTripStart]
  have hne : ¬ (("USDT" : String) = "BTC") := by decide
  unfold MockState.create_order
  rw [if_neg hfill1]
  simp only [marketBuyQ, roundTripStart, splitSymbol_btc, MockState.get_sim_price,
    MockState.settle, Dict.get?, Dict.getD, Dict.set, AgentPortfolio.update_cash,
    AgentPortfolio.update_asset, Option.getD_some, Option.getD_none, pyOrId,
    eq_self_iff_true, if_true, hne, if_false, List.nil_append]
  split_ifs with hlt
  · exfalso
    nlinarith [hlt, hfunds]
  · simp only [rtBuyOrder, rtMidState, Except.ok.injEq, Prod.mk.injEq,
      ExecutedOrder.mk.injEq, MockState.mk.injEq, AgentPortfolio.mk.injEq,
      List.cons.injEq, Prod.mk.injEq, eq_self_iff_true, and_true, true_and]
    norm_num
    ring_nf

theorem C8_sell_leg (q c p s cr : ℚ) :
    (rtMidState q c p s cr).create_order (marketSellQ q) 0 (1/2) "s1" =
      .ok (rtSellOrder q p s cr, rtEndState q c p s cr) := by
  have hfill1 : ¬ ((0:ℚ) > (rtMidState q c p s cr).fill_probability) := by
    norm_num [rtMidState]
  have hsb : (OrderAction.sell = OrderAction.buy) = False :=
    eq_false (by decide)
  have hqq : (q < q) = False := eq_false (lt_irrefl q)
  unfold MockState.create_order
  rw [if_neg hfill1]
  simp only [marketSellQ, rtMidState, splitSymbol_btc, MockState.get_sim_price,
    MockState.settle, Dict.get?, Dict.getD, Dict.set, AgentPortfolio.update_cash,
    AgentPortfolio.update_asset, Option.getD_some, Option.getD_none, pyOrId,
    eq_self_iff_true, if_true, List.nil_append, hsb, hqq, if_false]
  simp only [rtBuyOrder, rtSellOrder, rtEndState, Except.ok.injEq, Prod.mk.injEq,
    ExecutedOrder.mk.injEq, MockState.mk.injEq, AgentPortfolio.mk.injEq,
    List.cons.injEq, Prod.mk.injEq, eq_self_iff_true, and_true, true_and,
    false_implies]
  norm_num
  ring_nf

theorem C8_trace (q c p s cr : ℚ)
    (hfunds : q * p * (1 + s) * (1 + cr) ≤ c) :
    roundTrip c p s cr q =
      .ok (rtBuyOrder q p s cr, rtSellOrder q p s cr, rtEndState q c p s cr) := by
  unfold roundTrip
  rw [C8_buy_leg q c p s cr hfunds]
  simp only [C8_sell_leg q c p s cr]

/-- C8: the claim as frozen says the round trip nets to initial cash minus
the two commissions only. With the concrete scenario numbers (cash 10000,
price 50000, q 0.1, slippage = commission = 0.001, zero noise) the two
commissions sum to 10, so the claim predicts 9990 USDT, but the actual
final balance is 9980: the slippage spread costs another 10. -/
theorem C8_counterexample :
    rtStatuses 10000 50000 (1/1000) (1/1000) (1/10) = some ("FILLED", "FILLED") ∧
    rtCash 10000 50000 (1/1000) (1/1000) (1/10) = some 9980 ∧
    rtFees 10000 50000 (1/1000) (1/1000) (1/10) = some 10 ∧
    rtAsset 10000 50000 (1/1000) (1/1000) (1/10) = some 0 ∧
    (10000 - 10 : ℚ) = 9990 ∧ (9980 : ℚ) ≠ 9990 := by
  have ht := C8_trace (1/10) 10000 50000 (1/1000) (1/1000) (by norm_num)
  refine ⟨?_, ?_, ?_, ?_, by norm_num, by norm_num⟩
  · unfold rtStatuses
    rw [ht]
    rfl
  · unfold rtCash
    rw [ht]
    norm_num [rtEndState, Dict.getD, Dict.get?]
  · unfold rtFees
    rw [ht]
    norm_num [rtBuyOrder, rtSellOrder]
  · unfold rtAsset
    rw [ht]
    norm_num [rtEndState, Dict.getD, Dict.get?]

/-- C8 (amended): a FILLED MARKET BUY of q at fixed reference price p
followed immediately by a FILLED MARKET SELL of q (zero price noise,
passing fill rolls, sufficient funds) returns the asset holding to its
pre-trade value 0, pays total commissions of 2·q·p·commission_rate, and
leaves cash equal to c − 2·q·p·(slippage + commission_rate): the loss is
the two commissions plus the slippage spread, and it is strictly positive
whenever q·p·(slippage + commission_rate) is. -/
theorem C8_round_trip (q c p s cr : ℚ) (hq : 0 < q) (hp : 0 < p)
    (hfunds : q * p * (1 + s) * (1 + cr) ≤ c) :
    rtStatuses c p s cr q = some ("FILLED", "FILLED") ∧
    rtAsset c p s cr q = some 0 ∧
    rtCash c p s cr q = some (c - 2 * q * p * (s + cr)) ∧
    rtFees c p s cr q = some (2 * q * p * cr) ∧
    (0 < q * p * (s + cr) → c - 2 * q * p * (s + cr) < c) := by
  have ht := C8_trace q c p s cr hfunds
  refine ⟨?_, ?_, ?_, ?_, fun h => by linarith⟩
  · unfold rtStatuses
    rw [ht]
    rfl
  · unfold rtAsset
    rw [ht]
    simp [rtEndState, Dict.getD, Dict.get?]
  · unfold rtCash
    rw [ht]
    simp only [rtEndState, Dict.getD, Dict.get?, eq_self_iff_true, if_true,
      Option.getD_some, Option.some.injEq]
    ring
  · unfold rtFees
    rw [ht]
    simp only [rtBuyOrder, rtSellOrder, Option.some.injEq]
    ring

/-- C8: witness — the amended round trip at the spec's concrete scenario
numbers. -/
theorem C8_witness :
    rtStatuses 10000 50000 (1/1000) (1/1000) (1/10) = some ("FILLED", "FILLED") ∧
    rtAsset 10000 50000 (1/1000) (1/1000) (1/10) = some 0 ∧
    rtCash 10000 50000 (1/1000) (1/1000) (1/10) =
      some (10000 - 2 * (1/10) * 50000 * (1/1000 + 1/1000)) ∧
    rtFees 10000 50000 (1/1000) (1/1000) (1/10) =
      some (2 * (1/10) * 50000 * (1/1000)) ∧
    (0 < (1/10 : ℚ) * 50000 * (1/1000 + 1/1000) →
      (10000 : ℚ) - 2 * (1/10) * 50000 * (1/1000 + 1/1000) < 10000) :=
  C8_round_trip (1/10) 10000 50000 (1/1000) (1/1000) (by norm_num) (by norm_num)
    (by norm_num)

/-- C9: the claim as frozen quantifies over every draw r in [0,1), but
random.random() can return exactly 0.0, and 0 > 0 is false: with
fill_probability 0 and draw 0 the order proceeds to settlement and fills
instead of being rejected. -/
theorem C9_counterexample :
    rejectAllState.fill_probability = 0 ∧ ((0:ℚ) ≤ 0 ∧ (0:ℚ) < 1) ∧
    resultStatus (rejectAllState.create_order marketBuy01 0 (1/2) "c9") =
      some "FILLED" := by
  norm_num +decide [MockState.create_order, MockState.settle, MockState.get_sim_price,
    splitSymbol_btc, Dict.get?, Dict.getD, Dict.set, AgentPortfolio.update_cash,
    AgentPortfolio.update_asset, pyOrId, resultStatus, resultOrder, resultState,
    rejectAllState, scenarioState, marketBuy01]

/-- C9 (amended): with fill_probability 0, every order whose draw r is
strictly positive — all of [0,1) except the single point 0 — returns
status REJECTED with the adapter state (hence the portfolio) unchanged. -/
theorem C9_reject (st : MockState) (req : OrderRequest) (r rN : ℚ) (fid : String)
    (hfp : st.fill_probability = 0) (hr : 0 < r) :
    resultStatus (st.create_order req r rN fid) = some "REJECTED" ∧
    resultState (st.create_order req r rN fid) = some st := by
  have hg : r > st.fill_probability := by rw [hfp]; exact hr
  unfold MockState.create_order
  rw [if_pos hg]
  exact ⟨rfl, rfl⟩

/-- C9: witness — the amended theorem at draw 0.5. -/
theorem C9_witness :
    resultStatus (rejectAllState.create_order marketBuy01 (1/2) (1/2) "w9") =
      some "REJECTED" ∧
    resultState (rejectAllState.create_order marketBuy01 (1/2) (1/2) "w9") =
      some rejectAllState :=
  C9_reject rejectAllState marketBuy01 (1/2) (1/2) "w9" rfl (by norm_num)

/-- C10: for a symbol with no configured simulated price,
get_current_price returns None, yet create_order substitutes the fallback
reference 1.0 (noise-scaled) and, with sufficient quote funds and a
passing fill roll, settles the MARKET BUY as FILLED at
(1 + (r − 0.5)·0.0005)·(1 + slippage) — within 1 percent of 1.0 for the
default slippage 0.001 and any draw r in [0,1). -/
theorem C10_missing_price_fallback (st : MockState) (sym base quote : String)
    (q rF rN : ℚ) (fid : String)
    (hnone : Dict.get? st.current_sim_prices sym = none)
    (hsym : splitSymbol sym = some (base, quote))
    (hfill : ¬ (rF > st.fill_probability))
    (hr0 : 0 ≤ rN) (hr1 : rN < 1)
    (hslip : st.slippage_factor = 1/1000)
    (hq : 0 ≤ q)
    (hcr : 0 ≤ st.commission_rate)
    (hfunds : q * (2 + 2 * st.commission_rate) ≤
      Dict.getD st.portfolio.cash_balance quote 0) :
    st.get_current_price sym = none ∧
    resultStatus (st.create_order
      { symbol := sym, action := .buy, order_type := .market, quantity := q }
      rF rN fid) = some "FILLED" ∧
    resultPrice (st.create_order
      { symbol := sym, action := .buy, order_type := .market, quantity := q }
      rF rN fid) =
      some ((1 + (rN - 1/2) * (5/10000)) * (1 + st.slippage_factor)) ∧
    |(1 + (rN - 1/2) * (5/10000)) * (1 + st.slippage_factor) - 1| < 1/100 := by
  have hsim : st.get_sim_price sym rN = 1 + (rN - 1/2) * (5/10000) := by
    simp [MockState.get_sim_price, hnone]
  have hp2 : (1 + (rN - 1/2) * (5/10000)) * (1 + st.slippage_factor) ≤ 2 := by
    rw [hslip]; nlinarith
  have hp0 : (0:ℚ) ≤ (1 + (rN - 1/2) * (5/10000)) * (1 + st.slippage_factor) := by
    rw [hslip]; nlinarith
  have hqcr : (0:ℚ) ≤ q * st.commission_rate := mul_nonneg hq hcr
  refine ⟨by simp [MockState.get_current_price, hnone], ?_, ?_, ?_⟩
  · unfold MockState.create_order
    rw [if_neg hfill]
    simp [hsym, hsim]
    simp only [MockState.settle]
    split_ifs with hbase hlt hlt2
    · exfalso
      nlinarith [mul_le_mul_of_nonneg_left hp2 hq]
    · rfl
    · exfalso
      nlinarith [mul_le_mul_of_nonneg_left hp2 hq,
        mul_le_mul_of_nonneg_left hp2 hqcr]
    · rfl
  · unfold MockState.create_order
    rw [if_neg hfill]
    simp [hsym, hsim]
    simp only [MockState.settle]
    split_ifs with hbase hlt hlt2
    · exfalso
      nlinarith [mul_le_mul_of_nonneg_left hp2 hq]
    · rfl
    · exfalso
      nlinarith [mul_le_mul_of_nonneg_left hp2 hq,
        mul_le_mul_of_nonneg_left hp2 hqcr]
    · rfl
  · rw [hslip, abs_lt]
    constructor <;> nlinarith

/-- C10: witness — a MARKET BUY of 1 XYZ/USDT against a state with no
configured prices and 1000 USDT cash, at noise draw 0.5. -/
theorem C10_witness :
    noPriceState.get_current_price "XYZ/USDT" = none ∧
    resultStatus (noPriceState.create_order
      { symbol := "XYZ/USDT", action := .buy, order_type := .market, quantity := 1 }
      0 (1/2) "w10") = some "FILLED" ∧
    resultPrice (noPriceState.create_order
      { symbol := "XYZ/USDT", action := .buy, order_type := .market, quantity := 1 }
      0 (1/2) "w10") =
      some ((1 + ((1:ℚ)/2 - 1/2) * (5/10000)) * (1 + noPriceState.slippage_factor)) ∧
    |(1 + ((1:ℚ)/2 - 1/2) * (5/10000)) * (1 + noPriceState.slippage_factor) - 1| <
      1/100 :=
  C10_missing_price_fallback noPriceState "XYZ/USDT" "XYZ" "USDT" 1 0 (1/2) "w10"
    rfl (by decide) (by norm_num [noPriceState]) (by norm_num) (by norm_num)
    rfl (by norm_num) (by norm_num [noPriceState])
    (by norm_num [noPriceState, Dict.getD, Dict.get?])

end CTB
